import Mathlib

/-!
Verification development for a multi-threaded HTTP/1.1 file server
(`server.py`).  The server's request handling is shallowly embedded as
executable Lean functions:

* byte sequences are modelled as `String` (the server decodes all wire
  bytes as ISO-8859-1, a bijective single-byte encoding, so one `Char`
  per byte is faithful for the code paths modelled here);
* the filesystem collaborator (`os.path.realpath`, `os.path.exists`,
  `os.path.isdir`, `os.path.getsize`, file reads) is an explicit record
  `FS` of pure functions;
* the JSON codec collaborator (`json.loads` / `json.dump` / `json.dumps`)
  is an explicit record `Codec`;
* the wall clock (`formatdate`, used only for the `Date` header value) is
  an uninterpreted `date : String` parameter, and the per-connection idle
  check `time.time() - last_activity > CONN_TIMEOUT` is modelled by a
  boolean `elapsed` field on each received request;
* a socket is modelled by the sequence of values its reads return: one
  header block (the result of `recv_headers`) per loop iteration plus the
  list of chunks later `recv(4096)` calls return, and the data written to
  it is collected as a list of `SendEvent`s.

Python string primitives used by the server (`str.split`, `str.strip`,
`str.lower`, `os.path.splitext`, `os.path.basename`, `os.path.join`,
`int(...)`) are re-implemented below with matching semantics on the
ASCII inputs that occur in HTTP messages.
-/

/-- Whitespace as recognised by Python's `str.split()` / `str.strip()`. -/
def isPySpace (c : Char) : Bool :=
  c == ' ' || c == '\t' || c == '\n' || c == '\r' || c == '\x0b' || c == '\x0c'

/-- Both-ends whitespace strip on a character list (Python `str.strip()`). -/
def stripList (l : List Char) : List Char :=
  ((l.dropWhile isPySpace).reverse.dropWhile isPySpace).reverse

/-- Python `str.strip()`. -/
def pyStrip (s : String) : String := String.mk (stripList s.toList)

/-- Whether the first list is a leading segment of the second. -/
def isPrefixList : List Char → List Char → Bool
  | [], _ => true
  | _ :: _, [] => false
  | a :: as, b :: bs => a == b && isPrefixList as bs

/-- Split at the first occurrence of `sep`: returns the part before it and
the part after it, or `none` when `sep` does not occur. -/
def breakOnSub (sep : List Char) : List Char → Option (List Char × List Char)
  | [] => if isPrefixList sep [] then some ([], []) else none
  | c :: rest =>
    if isPrefixList sep (c :: rest) then some ([], (c :: rest).drop sep.length)
    else
      match breakOnSub sep rest with
      | some (pre, post) => some (c :: pre, post)
      | none => none

/-- Fuelled worker for `splitOnSub`. -/
def splitOnSubAux (sep : List Char) : Nat → List Char → List (List Char)
  | 0, s => [s]
  | fuel + 1, s =>
    match breakOnSub sep s with
    | none => [s]
    | some (pre, post) => pre :: splitOnSubAux sep fuel post

/-- Split on every occurrence of a (non-empty) separator, Python
`str.split(sep)` semantics. -/
def splitOnSub (sep s : List Char) : List (List Char) :=
  splitOnSubAux sep (s.length + 1) s

/-- Python `s.startswith(pat)`. -/
def strStarts (s pat : String) : Bool := isPrefixList pat.toList s.toList

/-- Python `pat in s` (substring containment). -/
def containsStr (s pat : String) : Bool := (breakOnSub pat.toList s.toList).isSome

/-- ASCII lower-casing of one character (Python `str.lower` on ASCII). -/
def lowerChar (c : Char) : Char :=
  if 'A' ≤ c && c ≤ 'Z' then Char.ofNat (c.toNat + 32) else c

/-- ASCII lower-casing (Python `str.lower` on ASCII strings). -/
def lowerStr (s : String) : String := String.mk (s.toList.map lowerChar)

/-- Worker for `splitWs`: accumulates the current token reversed. -/
def splitWsAux (acc : List Char) : List Char → List (List Char)
  | [] => if acc.isEmpty then [] else [acc.reverse]
  | c :: rest =>
    if isPySpace c then
      if acc.isEmpty then splitWsAux [] rest
      else acc.reverse :: splitWsAux [] rest
    else splitWsAux (c :: acc) rest

/-- Python `str.split()` with no argument: split on whitespace runs,
dropping empty tokens. -/
def splitWs (s : String) : List String := (splitWsAux [] s.toList).map String.mk

/-- Insert into a Python-`dict`-like association list: replace in place on
an existing key, else append (preserving insertion order). -/
def dictInsert (d : List (String × String)) (k v : String) : List (String × String) :=
  if d.any (fun p => p.1 == k) then d.map (fun p => if p.1 == k then (k, v) else p)
  else d ++ [(k, v)]

/-- Python `dict` lookup (`d.get(k)`), exact (case-sensitive) key match. -/
def dictGet (d : List (String × String)) (k : String) : Option String :=
  (d.find? (fun p => p.1 == k)).map (fun p => p.2)

/-- Python `d.get(k, dflt)`. -/
def dictGetD (d : List (String × String)) (k dflt : String) : String :=
  (dictGet d k).getD dflt

/-- Python `path.lstrip("/")`. -/
def lstripSlash (s : String) : String :=
  String.mk (s.toList.dropWhile (fun c => c == '/'))

/-- Python `os.path.join(a, b)` for the shapes the server uses (`a` has no
trailing slash). -/
def osJoin (a b : String) : String :=
  if strStarts b "/" then b else a ++ "/" ++ b

/-- Python `os.path.basename`. -/
def baseNameOf (p : String) : String :=
  String.mk ((p.toList.reverse.takeWhile (fun c => c != '/')).reverse)

/-- Python `os.path.splitext(p)[1]`: the extension of the final path
component, empty when the only dots are leading dots of the basename. -/
def extOf (p : String) : String :=
  let base := (baseNameOf p).toList
  let rest := base.dropWhile (fun c => c == '.')
  if rest.contains '.' then
    String.mk ('.' :: (rest.reverse.takeWhile (fun c => c != '.')).reverse)
  else ""

/-- Digit-string value, `none` on empty or non-digit input. -/
def digitsVal? : List Char → Option Nat
  | [] => none
  | l =>
    l.foldl
      (fun acc c =>
        acc.bind (fun n => if c.isDigit then some (n * 10 + (c.toNat - 48)) else none))
      (some 0)

/-- Python `int(s)` on base-10 literals with optional sign and surrounding
whitespace; `none` models the `ValueError` that `int` raises otherwise. -/
def pyInt? (s : String) : Option Int :=
  match stripList s.toList with
  | '-' :: rest => (digitsVal? rest).map (fun n => -(n : Int))
  | '+' :: rest => (digitsVal? rest).map (fun n => (n : Int))
  | l => (digitsVal? l).map (fun n => (n : Int))

/-- Worker for `chunkList`: `acc` is the current chunk reversed and `k`
its remaining capacity; a full chunk is flushed when another byte
arrives. -/
def chunkAux (cap : Nat) : List Char → List Char → Nat → List (List Char)
  | [], acc, _ => if acc.isEmpty then [] else [acc.reverse]
  | c :: rest, acc, 0 => acc.reverse :: chunkAux cap rest [c] (cap - 1)
  | c :: rest, acc, k + 1 => chunkAux cap rest (c :: acc) k

/-- Split a character list into maximal groups of `n` (the chunks that
successive `f.read(n)` calls return). -/
def chunkList (n : Nat) (l : List Char) : List (List Char) :=
  chunkAux n l [] n

/-- The 8192-byte chunks the server's binary streaming loop reads. -/
def chunksOf8192 (s : String) : List String :=
  (chunkList 8192 s.toList).map String.mk

/-! ## Configuration constants (server.py, `Config` section) -/

/-- Config: `MAX_REQUESTS_PER_CONN = 100`. -/
def MAX_REQUESTS_PER_CONN : Nat := 100

/-- Config: `RESOURCES_DIR = "resources"`. -/
def RESOURCES_DIR : String := "resources"

/-- Config: `UPLOADS_DIR = os.path.join(RESOURCES_DIR, "uploads")`. -/
def UPLOADS_DIR : String := "resources/uploads"

/-- The first accepted Host value, `f"{HOST}:{PORT}"` with the module
constants `HOST = "127.0.0.1"`, `PORT = 8080`. -/
def hostMain : String := "127.0.0.1:8080"

/-- The second accepted Host value, `f"localhost:{PORT}"`. -/
def hostLocal : String := "localhost:8080"

/-! ## Data model -/

/-- Filesystem collaborator: the `os.path` / file-read operations the
server consumes, as pure functions of the path. -/
structure FS where
  realpath : String → String
  pathExists : String → Bool
  isDir : String → Bool
  size : String → Nat
  readAll : String → String

/-- JSON codec collaborator (`json` module): `parse` models `json.loads`
(`none` = exception), `dumpFile` models the `json.dump(..., indent=2)`
serialization written to the upload file, and `dump201` models the
`json.dumps` of the literal success envelope built from the upload's
filename. -/
structure Codec (J : Type) where
  parse : String → Option J
  dumpFile : J → String
  dump201 : String → String

/-- An HTTP response as assembled by `build_response`: status line pieces,
headers in insertion order, and the body appended to the header block. -/
structure Response where
  status : Nat
  reason : String
  headers : List (String × String)
  body : String

/-- One write to the client socket: either a framed response
(`build_response` output) or one 8192-byte chunk of a streamed file. -/
inductive SendEvent where
  | resp (r : Response)
  | chunk (c : String)

/-- Input for one iteration of the connection loop: the header block that
`recv_headers` returns, the values later `sock.recv(4096)` calls return
while handling this request, and whether the post-request idle-time check
`time.time() - last_activity > CONN_TIMEOUT` fires. -/
structure ConnInput where
  raw : String
  bodyChunks : List String
  elapsed : Bool

/-- Outcome of handling one received header block inside the `while` loop:
`halt` = an error path that `break`s out of the loop, `keep` = the
request was dispatched to a handler and the loop proceeds to the
keep-alive bookkeeping, `crash` = an uncaught Python exception propagates
out of `handle_connection` (skipping `sock.close()`). -/
inductive StepOut where
  | halt (events : List SendEvent) (uploads : List (String × String))
  | keep (events : List SendEvent) (uploads : List (String × String)) (keepAlive : Bool)
  | crash (events : List SendEvent) (uploads : List (String × String))

/-- Final fate of a connection: `closed` = the loop exited and
`sock.close()` ran; `crashed` = an exception escaped `handle_connection`
and was caught only by the worker's `try/except`. Both record everything
sent on the socket and the final uploads-directory contents. -/
inductive ConnResult where
  | closed (events : List SendEvent) (uploads : List (String × String))
  | crashed (events : List SendEvent) (uploads : List (String × String))

/-! ## Request parsing and response framing -/

/-- The error/close responses the server builds:
`build_response(status, reason, {"Date": ..., "Connection": "close"}, body)`. -/
def errResponse (date : String) (status : Nat) (reason bodyText : String) : Response :=
  { status := status, reason := reason,
    headers := [("Date", date), ("Connection", "close")], body := bodyText }

/-- Value of the `Connection` response header on success paths. -/
def keepAliveHdr (keep_alive : Bool) : String :=
  if keep_alive then "keep-alive" else "close"

/-- Value of the `Keep-Alive` response header on success paths (the empty
string when the connection is closing). -/
def keepAliveVal (keep_alive : Bool) : String :=
  if keep_alive then "timeout=30, max=100" else ""

/-- `parse_headers`: decode (identity for ISO-8859-1), split the block on
CRLF, take the first line as the request line, and fold the remaining
lines into a dict, keeping only lines containing `": "` and splitting
each at its first occurrence. -/
def parse_headers (raw : String) : String × List (String × String) :=
  let lines := (splitOnSub "\r\n".toList raw.toList).map String.mk
  let request_line := lines.headD ""
  let headers :=
    (lines.drop 1).foldl
      (fun h line =>
        let parts := (splitOnSub ": ".toList line.toList).map String.mk
        if parts.length ≥ 2 then
          dictInsert h (pyStrip (parts.headD "")) (pyStrip (String.intercalate ": " (parts.drop 1)))
        else h)
      []
  (request_line, headers)

/-- The already-buffered body bytes handed to `handle_post`:
`raw.split(b"\r\n\r\n", 1)[1] if b"\r\n\r\n" in raw else b""`. -/
def bodyOfRaw (raw : String) : String :=
  match breakOnSub "\r\n\r\n".toList raw.toList with
  | some (_, post) => String.mk post
  | none => ""

/-- `safe_path(base, path)`: canonicalize `base` joined with the
slash-stripped path and reject the result unless it still starts with the
canonicalized base. -/
def safe_path (fs : FS) (base path : String) : Option String :=
  let target := fs.realpath (osJoin base (lstripSlash path))
  if strStarts target (fs.realpath base) then some target else none

/-- Line 160: `keep_alive = version == "HTTP/1.1" and
headers.get("Connection", "").lower() != "close"`. -/
def keepAliveOf (version : String) (headers : List (String × String)) : Bool :=
  version == "HTTP/1.1" && lowerStr (dictGetD headers "Connection" "") != "close"

/-! ## GET/HEAD handler -/

/-- `handle_get_head`: rewrite `/` to `/index.html`, resolve through
`safe_path`, reject directories (403), reject non-allow-listed extensions
(415, before the existence check), reject missing files (404), then serve:
HTML buffered with the body suppressed for HEAD, other allow-listed types
streamed in 8192-byte chunks after a header-only `build_response`
(the source streams without checking the method). Returns the sequence of
socket writes. -/
def handle_get_head (fs : FS) (date path0 : String) (keep_alive : Bool)
    (method : String) : List SendEvent :=
  let path := if path0 == "/" then "/index.html" else path0
  match safe_path fs RESOURCES_DIR path with
  | none => [.resp (errResponse date 403 "Forbidden" "403 Forbidden")]
  | some filepath =>
    if fs.isDir filepath then [.resp (errResponse date 403 "Forbidden" "403 Forbidden")]
    else
      let ext := lowerStr (extOf filepath)
      if !([".html", ".png", ".jpg", ".jpeg", ".txt"].contains ext) then
        [.resp (errResponse date 415 "Unsupported Media Type" "415 Unsupported Media Type")]
      else if !(fs.pathExists filepath) then
        [.resp (errResponse date 404 "Not Found" "404 Not Found")]
      else if ext == ".html" then
        let body := fs.readAll filepath
        [.resp { status := 200, reason := "OK",
                 headers := [("Date", date),
                             ("Content-Type", "text/html; charset=utf-8"),
                             ("Content-Length", toString body.length),
                             ("Connection", keepAliveHdr keep_alive),
                             ("Keep-Alive", keepAliveVal keep_alive)],
                 body := if method == "GET" then body else "" }]
      else if [".png", ".jpg", ".jpeg", ".txt"].contains ext then
        let filesize := fs.size filepath
        SendEvent.resp
          { status := 200, reason := "OK",
            headers := [("Date", date),
                        ("Content-Type", "application/octet-stream"),
                        ("Content-Disposition",
                          "attachment; filename=\"" ++ baseNameOf filepath ++ "\""),
                        ("Content-Length", toString filesize),
                        ("Connection", keepAliveHdr keep_alive),
                        ("Keep-Alive", keepAliveVal keep_alive)],
            body := "" }
          :: (chunksOf8192 (fs.readAll filepath)).map SendEvent.chunk
      else []

/-! ## POST /upload handler -/

/-- The body-accumulation loop of `handle_post`: starting from the bytes
already buffered, `while len(data) < content_length: data += sock.recv(4096)`.
`chunks` is the sequence of values the remaining `recv` calls return;
exhausting it while still short models a read that never completes
(the loop spins or `socket.timeout` is raised — no response is produced). -/
def uploadData (content_length : Int) : String → List String → Option String
  | data, [] => if (data.length : Int) < content_length then none else some data
  | data, c :: rest =>
    if (data.length : Int) < content_length then uploadData content_length (data ++ c) rest
    else some data

/-- The 201 Created response `handle_post` builds on success. -/
def created201 {J : Type} (C : Codec J) (date fname : String) (keep_alive : Bool) : Response :=
  { status := 201, reason := "Created",
    headers := [("Date", date),
                ("Content-Type", "application/json"),
                ("Content-Length", toString (C.dump201 fname).length),
                ("Connection", keepAliveHdr keep_alive),
                ("Keep-Alive", keepAliveVal keep_alive)],
    body := C.dump201 fname }

/-- `handle_post`: reject anything but `POST /upload` with a JSON content
type (415), read the declared body length (`int` failure and a read that
never completes both surface as `none` = no response, exception path),
parse the accumulated bytes (failure → 400, nothing written), else write
the upload under `fname` (models `upload_<timestamp>_<rand>.json`) and
respond 201. Returns the socket writes and the new uploads contents. -/
def handle_post {J : Type} (C : Codec J) (date fname path : String)
    (headers : List (String × String)) (body : String) (bodyChunks : List String)
    (keep_alive : Bool) (uploads : List (String × String)) :
    Option (List SendEvent × List (String × String)) :=
  if path != "/upload" || !(containsStr (dictGetD headers "Content-Type" "") "application/json") then
    some ([.resp (errResponse date 415 "Unsupported Media Type" "415 Unsupported Media Type")],
          uploads)
  else
    match pyInt? (dictGetD headers "Content-Length" "0") with
    | none => none
    | some content_length =>
      match uploadData content_length body bodyChunks with
      | none => none
      | some data =>
        match C.parse data with
        | none =>
          some ([.resp (errResponse date 400 "Bad Request" "400 Bad Request: Invalid JSON")],
                uploads)
        | some j =>
          some ([.resp (created201 C date fname keep_alive)],
                uploads ++ [(osJoin UPLOADS_DIR fname, C.dumpFile j)])

/-! ## Connection loop -/

/-- One iteration body of `handle_connection`'s `while` loop, after a
non-empty header block was received: parse; 400 on an empty request line
or missing Host; 403 on a Host mismatch; 400 on fewer than 3 request-line
tokens; the 3-way unpack `method, path, version = parts` raises
`ValueError` on more than 3 tokens (`crash`); 403 on a literal traversal
pattern in the raw path (before any filesystem access); then dispatch by
method (405 for anything but GET/HEAD/POST). `fnames` supplies the
timestamp-plus-random upload filename, indexed by uploads so far. -/
def connStep {J : Type} (fs : FS) (C : Codec J) (fnames : Nat → String) (date : String)
    (inp : ConnInput) (uploads : List (String × String)) : StepOut :=
  let parsed := parse_headers inp.raw
  let request_line := parsed.1
  let headers := parsed.2
  if request_line == "" || (dictGet headers "Host").isNone then
    .halt [.resp (errResponse date 400 "Bad Request" "400 Bad Request")] uploads
  else
    let host := dictGetD headers "Host" ""
    if !(host == hostMain || host == hostLocal) then
      .halt [.resp (errResponse date 403 "Forbidden" "403 Forbidden")] uploads
    else
      let parts := splitWs request_line
      if parts.length < 3 then
        .halt [.resp (errResponse date 400 "Bad Request" "400 Bad Request")] uploads
      else
        match parts with
        | [method, path, version] =>
          let keep_alive := keepAliveOf version headers
          if containsStr path ".." || strStarts path "/../" || strStarts path "//" then
            .halt [.resp (errResponse date 403 "Forbidden" "403 Forbidden")] uploads
          else if method == "GET" || method == "HEAD" then
            .keep (handle_get_head fs date path keep_alive method) uploads keep_alive
          else if method == "POST" then
            match handle_post C date (fnames uploads.length) path headers (bodyOfRaw inp.raw)
                inp.bodyChunks keep_alive uploads with
            | some (evs, ups) => .keep evs ups keep_alive
            | none => .crash [] uploads
          else
            .halt [.resp (errResponse date 405 "Method Not Allowed" "405 Method Not Allowed")]
              uploads
        | _ => .crash [] uploads

/-- Prefix earlier socket writes onto a connection outcome. -/
def ConnResult.prepend (evs : List SendEvent) : ConnResult → ConnResult
  | .closed e u => .closed (evs ++ e) u
  | .crashed e u => .crashed (evs ++ e) u

/-- `handle_connection`'s request loop over the sequence of header blocks
the socket yields: runs while `requests_handled < MAX_REQUESTS_PER_CONN`,
breaks on an empty read, breaks (closing) on `halt`, propagates `crash`,
and after a dispatched request increments the counter and continues only
when keep-alive holds and the idle window has not elapsed. -/
def connLoop {J : Type} (fs : FS) (C : Codec J) (fnames : Nat → String) (date : String) :
    List ConnInput → Nat → List (String × String) → ConnResult
  | [], _, uploads => .closed [] uploads
  | inp :: rest, handled, uploads =>
    if MAX_REQUESTS_PER_CONN ≤ handled then .closed [] uploads
    else if inp.raw == "" then .closed [] uploads
    else
      match connStep fs C fnames date inp uploads with
      | .halt evs ups => .closed evs ups
      | .crash evs ups => .crashed evs ups
      | .keep evs ups kA =>
        if !kA then .closed evs ups
        else if inp.elapsed then .closed evs ups
        else (connLoop fs C fnames date rest (handled + 1) ups).prepend evs

/-- Number of framed responses among a list of socket writes. -/
def countResps (evs : List SendEvent) : Nat :=
  evs.countP (fun e => match e with | .resp _ => true | .chunk _ => false)

/-- Number of framed responses a finished connection received. -/
def ConnResult.respCount : ConnResult → Nat
  | .closed evs _ => countResps evs
  | .crashed evs _ => countResps evs

/-- Whether the connection ended through `sock.close()`. -/
def ConnResult.isClosed : ConnResult → Bool
  | .closed _ _ => true
  | .crashed _ _ => false

/-- Socket writes of a step outcome. -/
def StepOut.events : StepOut → List SendEvent
  | .halt e _ => e
  | .keep e _ _ => e
  | .crash e _ => e

/-! ## Concrete fixtures for witness evaluations -/

/-- A fixed RFC-1123 date stamp standing in for `http_date_now()`. -/
def dateW : String := "Thu, 01 Jan 2026 00:00:00 GMT"

/-- A trivial codec whose parse always fails. -/
def codecTriv : Codec Unit :=
  { parse := fun _ => none, dumpFile := fun _ => "null", dump201 := fun _ => "ok" }

/-- A codec accepting exactly the two-byte document `"\x7b\x7d"`. -/
def codecBrace : Codec Unit :=
  { parse := fun s => if s == "\x7b\x7d" then some () else none,
    dumpFile := fun _ => "\x7b\x7d", dump201 := fun _ => "ok" }

/-- A fixed upload-filename supply. -/
def fnTriv : Nat → String := fun i => "upload_20260101_000000_" ++ toString i ++ ".json"

/-- Filesystem with only an empty `resources/index.html` and no symlinks
(`realpath` is the identity). -/
def fsGood : FS :=
  { realpath := fun p => p,
    pathExists := fun p => p == "resources/index.html",
    isDir := fun _ => false, size := fun _ => 0, readAll := fun _ => "" }

/-- Filesystem on which no path exists. -/
def fs404 : FS :=
  { realpath := fun p => p, pathExists := fun _ => false,
    isDir := fun _ => false, size := fun _ => 0, readAll := fun _ => "" }

/-- Filesystem with a five-byte `resources/notes.txt`. -/
def fsTxt : FS :=
  { realpath := fun p => p,
    pathExists := fun p => p == "resources/notes.txt",
    isDir := fun _ => false,
    size := fun p => if p == "resources/notes.txt" then 5 else 0,
    readAll := fun p => if p == "resources/notes.txt" then "hello" else "" }

/-- Filesystem on which every path exists, including `resources/a.xyz`. -/
def fs415 : FS :=
  { realpath := fun p => p, pathExists := fun _ => true,
    isDir := fun _ => false, size := fun _ => 3, readAll := fun _ => "abc" }

/-- Filesystem whose canonicalization moves everything under the serving
root elsewhere (a symlinked escape caught only by the `realpath` guard). -/
def fsEvil : FS :=
  { realpath := fun p => if p == "resources" then "/srv/root" else "/elsewhere/target",
    pathExists := fun _ => true, isDir := fun _ => false,
    size := fun _ => 0, readAll := fun _ => "" }

/-- A valid keep-alive GET for `/index.html`. -/
def goodInp : ConnInput :=
  { raw := "GET /index.html HTTP/1.1\r\nHost: 127.0.0.1:8080\r\n\r\n",
    bodyChunks := [], elapsed := false }

/-- A keep-alive GET for a missing HTML file. -/
def inp404 : ConnInput :=
  { raw := "GET /nope.html HTTP/1.1\r\nHost: 127.0.0.1:8080\r\n\r\n",
    bodyChunks := [], elapsed := false }

/-- A request whose request line has four whitespace-separated tokens. -/
def inp4tok : ConnInput :=
  { raw := "GET /a HTTP/1.1 EXTRA\r\nHost: 127.0.0.1:8080\r\n\r\n",
    bodyChunks := [], elapsed := false }

/-- A request whose request line has only two tokens. -/
def inp2tok : ConnInput :=
  { raw := "GET /a\r\nHost: 127.0.0.1:8080\r\n\r\n",
    bodyChunks := [], elapsed := false }

/-- A request whose raw path contains a literal `..` traversal pattern. -/
def inpTrav : ConnInput :=
  { raw := "GET /../x HTTP/1.1\r\nHost: localhost:8080\r\n\r\n",
    bodyChunks := [], elapsed := false }

/-! ## Claims -/

/-- C1 (code bug): the claim says a HEAD of an existing allow-listed
non-HTML file sends the 200 headers and emits no body bytes, with the
method checked before any chunk is written. The streaming branch of
`handle_get_head` (server.py lines 227-241) never inspects `method`: on
`HEAD /notes.txt` over `fsTxt` (a five-byte `resources/notes.txt`) the
server sends the correct 200 header block and then streams the file's
five body bytes anyway. -/
theorem spec_C1 :
    handle_get_head fsTxt dateW "/notes.txt" true "HEAD" =
      [SendEvent.resp
        { status := 200, reason := "OK",
          headers := [("Date", dateW),
                      ("Content-Type", "application/octet-stream"),
                      ("Content-Disposition", "attachment; filename=\"notes.txt\""),
                      ("Content-Length", "5"),
                      ("Connection", "keep-alive"),
                      ("Keep-Alive", "timeout=30, max=100")],
          body := "" },
       SendEvent.chunk "hello"] := by
  rfl

/-- C2 (code bug): the claim says every protocol-level error response is
terminal: `Connection: close` is sent and no further request is read.
Errors raised inside the handlers are not terminal: on one connection
carrying two keep-alive GETs for a missing HTML file, the loop answers
the first 404 (whose headers do say `Connection: close`) and then reads
and answers the second request as well. -/
theorem spec_C2 :
    connLoop fs404 codecTriv fnTriv dateW [inp404, inp404] 0 [] =
      ConnResult.closed
        [SendEvent.resp (errResponse dateW 404 "Not Found" "404 Not Found"),
         SendEvent.resp (errResponse dateW 404 "Not Found" "404 Not Found")] [] ∧
    dictGet (errResponse dateW 404 "Not Found" "404 Not Found").headers "Connection" =
      some "close" := by
  exact ⟨rfl, rfl⟩

/-- C4 (code bug): the claim says a request line with other than exactly
3 whitespace-separated tokens gets a 400 and a clean close. The code only
checks `len(parts) < 3` and then unpacks three values, so a 4-token
request line raises an uncaught `ValueError` out of `handle_connection`:
nothing is sent and `sock.close()` is skipped (`crashed`), while a
2-token line does get the 400-and-close the claim describes. -/
theorem spec_C4 :
    connLoop fs404 codecTriv fnTriv dateW [inp4tok] 0 [] = ConnResult.crashed [] [] ∧
    connLoop fs404 codecTriv fnTriv dateW [inp2tok] 0 [] =
      ConnResult.closed
        [SendEvent.resp (errResponse dateW 400 "Bad Request" "400 Bad Request")] [] := by
  exact ⟨rfl, rfl⟩

/-- C10 (confirmed): a GET/HEAD for `/` is handled exactly as one for
`/index.html`: `handle_get_head` rewrites the path before `safe_path`
resolution, the extension check and the existence check, so the two
calls produce the same socket writes on every filesystem. -/
theorem spec_C10 (fs : FS) (date : String) (kA : Bool) (method : String) :
    handle_get_head fs date "/" kA method = handle_get_head fs date "/index.html" kA method := by
  rfl

/-- Concatenation of a list of byte strings. -/
def strConcat (l : List String) : String := l.foldr (fun a b => a ++ b) ""

/-- Helper: when the body-accumulation loop completes, the accumulated
data is at least the declared length. -/
lemma uploadData_le_length (n : Int) (body : String) (chunks : List String) (d : String)
    (h : uploadData n body chunks = some d) : n ≤ (d.length : Int) := by
  induction chunks generalizing body with
  | nil =>
    simp only [uploadData] at h
    split at h
    · exact absurd h (by simp)
    · next hge =>
      cases h
      omega
  | cons c rest ih =>
    simp only [uploadData] at h
    split at h
    · exact ih _ h
    · next hge =>
      cases h
      omega

/-- Helper: the accumulated data is the buffered body followed by some
whole number of received chunks. -/
lemma uploadData_decomp (n : Int) (body : String) (chunks : List String) (d : String)
    (h : uploadData n body chunks = some d) :
    ∃ k, d = body ++ strConcat (chunks.take k) := by
  induction chunks generalizing body with
  | nil =>
    simp only [uploadData] at h
    split at h
    · exact absurd h (by simp)
    · cases h
      exact ⟨0, by simp [strConcat]⟩
  | cons c rest ih =>
    simp only [uploadData] at h
    split at h
    · obtain ⟨k, hk⟩ := ih _ h
      refine ⟨k + 1, ?_⟩
      simpa [strConcat, ← String.append_assoc] using hk
    · cases h
      exact ⟨0, by simp [strConcat]⟩

/-- C6 (corrected, counterexample): the claim says the upload action reads
and parses exactly `Content-Length` bytes. When more than the declared
length is already buffered from the header read, the loop keeps it all:
with `Content-Length: 2` and three buffered bytes `"\x7b\x7dx"`, the
accumulated data is all three bytes, and `handle_post` feeds them to the
parser, answering 400 even though the first two bytes are the valid JSON
document `"\x7b\x7d"` that `codecBrace` accepts. -/
theorem spec_C6_counterexample :
    uploadData 2 "\x7b\x7dx" [] = some "\x7b\x7dx" ∧
    ¬ (("\x7b\x7dx".length : Int) = 2) ∧
    codecBrace.parse "\x7b\x7d" = some () ∧
    handle_post codecBrace dateW "f1" "/upload"
        [("Content-Type", "application/json"), ("Content-Length", "2")]
        "\x7b\x7dx" [] true [] =
      some ([SendEvent.resp (errResponse dateW 400 "Bad Request" "400 Bad Request: Invalid JSON")],
            []) := by
  exact ⟨rfl, by decide, rfl, rfl⟩

/-- C6 (amended): for every accepted `POST /upload` declaring
`Content-Length` n whose body read completes with data `d`, the action
keeps pulling chunks until at least n bytes are available — `d` is the
buffered body plus some whole number of received chunks, of length ≥ n
(not exactly n) — and the JSON parse is applied to the entire accumulated
`d`: parse failure on `d` yields the 400 with uploads untouched, success
writes the parsed value and yields the 201. -/
theorem spec_C6 (J : Type) (C : Codec J) (date fname : String)
    (hdrs : List (String × String)) (body : String) (chunks : List String)
    (kA : Bool) (uploads : List (String × String)) (n : Int) (d : String)
    (hct : containsStr (dictGetD hdrs "Content-Type" "") "application/json" = true)
    (hcl : pyInt? (dictGetD hdrs "Content-Length" "0") = some n)
    (hdata : uploadData n body chunks = some d) :
    n ≤ (d.length : Int) ∧
    (∃ k, d = body ++ strConcat (chunks.take k)) ∧
    (C.parse d = none →
      handle_post C date fname "/upload" hdrs body chunks kA uploads =
        some ([SendEvent.resp (errResponse date 400 "Bad Request" "400 Bad Request: Invalid JSON")],
              uploads)) ∧
    (∀ j, C.parse d = some j →
      handle_post C date fname "/upload" hdrs body chunks kA uploads =
        some ([SendEvent.resp (created201 C date fname kA)],
              uploads ++ [(osJoin UPLOADS_DIR fname, C.dumpFile j)])) := by
  refine ⟨uploadData_le_length n body chunks d hdata,
          uploadData_decomp n body chunks d hdata, ?_, ?_⟩
  · intro hnone
    simp [handle_post, hct, hcl, hdata, hnone]
  · intro j hsome
    simp [handle_post, hct, hcl, hdata, hsome]

/-- C6 witness: the amended statement applied at `Content-Length: 4`,
buffered body `"ab"`, one received chunk `"cd"`. -/
theorem spec_C6_witness :
    (4 : Int) ≤ (("abcd" : String).length : Int) ∧
    (∃ k, ("abcd" : String) = "ab" ++ strConcat (["cd"].take k)) ∧
    (codecBrace.parse "abcd" = none →
      handle_post codecBrace dateW "f1" "/upload"
          [("Content-Type", "application/json"), ("Content-Length", "4")] "ab" ["cd"] true [] =
        some ([SendEvent.resp (errResponse dateW 400 "Bad Request" "400 Bad Request: Invalid JSON")],
              [])) ∧
    (∀ j, codecBrace.parse "abcd" = some j →
      handle_post codecBrace dateW "f1" "/upload"
          [("Content-Type", "application/json"), ("Content-Length", "4")] "ab" ["cd"] true [] =
        some ([SendEvent.resp (created201 codecBrace dateW "f1" true)],
              [] ++ [(osJoin UPLOADS_DIR "f1", codecBrace.dumpFile j)])) :=
  spec_C6 Unit codecBrace dateW "f1"
    [("Content-Type", "application/json"), ("Content-Length", "4")]
    "ab" ["cd"] true [] 4 "abcd" rfl rfl rfl

/-- C7 (confirmed): a `POST /upload` whose accumulated body fails to parse
as JSON is answered 400 and the uploads state is returned unchanged —
nothing is written on parse failure. -/
theorem spec_C7 (J : Type) (C : Codec J) (date fname : String)
    (hdrs : List (String × String)) (body : String) (chunks : List String)
    (kA : Bool) (uploads : List (String × String)) (n : Int) (d : String)
    (hct : containsStr (dictGetD hdrs "Content-Type" "") "application/json" = true)
    (hcl : pyInt? (dictGetD hdrs "Content-Length" "0") = some n)
    (hdata : uploadData n body chunks = some d)
    (hfail : C.parse d = none) :
    handle_post C date fname "/upload" hdrs body chunks kA uploads =
      some ([SendEvent.resp (errResponse date 400 "Bad Request" "400 Bad Request: Invalid JSON")],
            uploads) := by
  simp [handle_post, hct, hcl, hdata, hfail]

/-- C7 witness: invalid JSON body `"xyz"`, `Content-Length: 3`, no state
change. -/
theorem spec_C7_witness :
    handle_post codecBrace dateW "f2" "/upload"
        [("Content-Type", "application/json"), ("Content-Length", "3")] "xyz" [] true
        [("resources/uploads/old.json", "\x7b\x7d")] =
      some ([SendEvent.resp (errResponse dateW 400 "Bad Request" "400 Bad Request: Invalid JSON")],
            [("resources/uploads/old.json", "\x7b\x7d")]) :=
  spec_C7 Unit codecBrace dateW "f2"
    [("Content-Type", "application/json"), ("Content-Length", "3")]
    "xyz" [] true [("resources/uploads/old.json", "\x7b\x7d")] 3 "xyz" rfl rfl rfl rfl

/-- C5 (confirmed): for every GET/HEAD whose resolved path is not a
directory and has an extension outside the allow-list, `handle_get_head`
answers 415 — stated over an arbitrary filesystem, so in particular it
holds whether or not a file exists at that path (the extension check of
lines 198-204 precedes the existence check of line 207, and the answer is
415, never 404). -/
theorem spec_C5 (fs : FS) (date path : String) (kA : Bool) (method fp : String)
    (hsafe : safe_path fs RESOURCES_DIR (if path == "/" then "/index.html" else path) = some fp)
    (hdir : fs.isDir fp = false)
    (hext : ([".html", ".png", ".jpg", ".jpeg", ".txt"].contains (lowerStr (extOf fp))) = false) :
    handle_get_head fs date path kA method =
      [SendEvent.resp (errResponse date 415 "Unsupported Media Type" "415 Unsupported Media Type")] := by
  simp only [handle_get_head]
  rw [hsafe]
  simp only [hdir, hext, Bool.not_false, Bool.false_eq_true, if_false, if_true]

/-- C5 witness: on `fs415` every path exists — in particular
`resources/a.xyz` — yet `GET /a.xyz` is answered 415, not 404. -/
theorem spec_C5_witness :
    fs415.pathExists "resources/a.xyz" = true ∧
    handle_get_head fs415 dateW "/a.xyz" true "GET" =
      [SendEvent.resp (errResponse dateW 415 "Unsupported Media Type" "415 Unsupported Media Type")] :=
  ⟨rfl, spec_C5 fs415 dateW "/a.xyz" true "GET" "resources/a.xyz" rfl rfl rfl⟩

/-- Helper: once the request parses with an accepted Host and an exactly
3-token request line, `connStep` reduces to the traversal check followed
by method dispatch. -/
lemma connStep_eq {J : Type} (fs : FS) (C : Codec J) (fnames : Nat → String) (date : String)
    (inp : ConnInput) (uploads : List (String × String))
    (rl : String) (hdrs : List (String × String)) (h m p v : String)
    (hparse : parse_headers inp.raw = (rl, hdrs))
    (hhost : dictGet hdrs "Host" = some h)
    (hok : h = hostMain ∨ h = hostLocal)
    (hsplit : splitWs rl = [m, p, v]) :
    connStep fs C fnames date inp uploads =
      if containsStr p ".." || strStarts p "/../" || strStarts p "//" then
        .halt [.resp (errResponse date 403 "Forbidden" "403 Forbidden")] uploads
      else if m == "GET" || m == "HEAD" then
        .keep (handle_get_head fs date p (keepAliveOf v hdrs) m) uploads (keepAliveOf v hdrs)
      else if m == "POST" then
        match handle_post C date (fnames uploads.length) p hdrs (bodyOfRaw inp.raw)
            inp.bodyChunks (keepAliveOf v hdrs) uploads with
        | some (evs, ups) => .keep evs ups (keepAliveOf v hdrs)
        | none => .crash [] uploads
      else
        .halt [.resp (errResponse date 405 "Method Not Allowed" "405 Method Not Allowed")]
          uploads := by
  have hrlne : rl ≠ "" := by
    intro he
    rw [he] at hsplit
    simp [splitWs, splitWsAux] at hsplit
  have hhostb : (h == hostMain || h == hostLocal) = true := by
    rcases hok with rfl | rfl <;> simp
  simp only [connStep, hparse]
  rw [hsplit]
  simp only [dictGetD, hhost, Option.isNone_some, Option.getD_some, Bool.or_false,
    beq_eq_false_iff_ne, hhostb, Bool.not_true, List.length_cons, List.length_nil]
  rw [if_neg (by simp [hrlne]), if_neg (by simp), if_neg (by omega)]

/-- Helper: a non-empty header block whose request line survives a 3-way
split cannot be the empty read. -/
lemma raw_ne_empty (inp : ConnInput) (rl : String) (hdrs : List (String × String))
    (m p v : String) (hparse : parse_headers inp.raw = (rl, hdrs))
    (hsplit : splitWs rl = [m, p, v]) : (inp.raw == "") = false := by
  cases hb : (inp.raw == "") with
  | false => rfl
  | true =>
    exfalso
    have he : inp.raw = "" := by simpa using hb
    rw [he] at hparse
    have h0 : parse_headers "" = ("", ([] : List (String × String))) := rfl
    rw [h0] at hparse
    injection hparse with h1 h2
    rw [← h1] at hsplit
    simp [splitWs, splitWsAux] at hsplit

/-- C3 (confirmed): (1) for every received request whose raw path token
contains `..` or starts with `/../` or `//`, and whatever else the
connection holds, the loop answers one 403 with `Connection: close` and
closes without reading any further request — stated for an arbitrary
filesystem which the conclusion does not mention, so the literal check
precedes and is independent of canonicalization and of file existence;
(2) independently, a path whose canonicalized resolution escapes the
serving root (`safe_path` returns `none`) is answered 403 by
`handle_get_head`. -/
theorem spec_C3 :
    (∀ (J : Type) (C : Codec J) (fnames : Nat → String) (date : String) (fs : FS)
       (inp : ConnInput) (rest : List ConnInput) (handled : Nat)
       (uploads : List (String × String)) (rl : String) (hdrs : List (String × String))
       (h m p v : String),
       handled < MAX_REQUESTS_PER_CONN →
       parse_headers inp.raw = (rl, hdrs) →
       dictGet hdrs "Host" = some h →
       (h = hostMain ∨ h = hostLocal) →
       splitWs rl = [m, p, v] →
       (containsStr p ".." || strStarts p "/../" || strStarts p "//") = true →
       connLoop fs C fnames date (inp :: rest) handled uploads =
         ConnResult.closed [SendEvent.resp (errResponse date 403 "Forbidden" "403 Forbidden")]
           uploads) ∧
    (∀ (fs : FS) (date path : String) (kA : Bool) (method : String),
       safe_path fs RESOURCES_DIR (if path == "/" then "/index.html" else path) = none →
       handle_get_head fs date path kA method =
         [SendEvent.resp (errResponse date 403 "Forbidden" "403 Forbidden")]) := by
  constructor
  · intro J C fnames date fs inp rest handled uploads rl hdrs h m p v hlt hparse hhost hok
      hsplit htrav
    have hstep := connStep_eq fs C fnames date inp uploads rl hdrs h m p v hparse hhost hok hsplit
    rw [htrav] at hstep
    simp only [if_true] at hstep
    have hraw := raw_ne_empty inp rl hdrs m p v hparse hsplit
    simp only [connLoop]
    rw [if_neg (by omega), if_neg (by simp [hraw]), hstep]
  · intro fs date path kA method hnone
    simp only [handle_get_head]
    rw [hnone]

/-- C3 witness: `GET /../x` on a live connection draws the single 403 and
a close on a filesystem where the file could exist; and on `fsEvil`,
whose canonicalization escapes the root, `/a.html` draws the 403 from the
`safe_path` guard alone. -/
theorem spec_C3_witness :
    connLoop fsTxt codecTriv fnTriv dateW [inpTrav] 0 [] =
      ConnResult.closed [SendEvent.resp (errResponse dateW 403 "Forbidden" "403 Forbidden")] [] ∧
    handle_get_head fsEvil dateW "/a.html" true "GET" =
      [SendEvent.resp (errResponse dateW 403 "Forbidden" "403 Forbidden")] :=
  ⟨spec_C3.1 Unit codecTriv fnTriv dateW fsTxt inpTrav [] 0 [] "GET /../x HTTP/1.1"
      [("Host", "localhost:8080")] "localhost:8080" "GET" "/../x" "HTTP/1.1"
      (by decide) rfl rfl (Or.inr rfl) rfl rfl,
   spec_C3.2 fsEvil dateW "/a.html" true "GET" rfl⟩

/-- C8 (confirmed): the negotiated keep-alive flag of line 160 — the one
`connStep` hands to the handler and to the loop's continue decision — is
true exactly when the HTTP version is `HTTP/1.1` and the request's
`Connection` header value, lower-cased, is not `close` (absent header
counts as the empty string). -/
theorem spec_C8 :
    (∀ (version : String) (hdrs : List (String × String)),
      keepAliveOf version hdrs = true ↔
        (version = "HTTP/1.1" ∧ lowerStr (dictGetD hdrs "Connection" "") ≠ "close")) ∧
    (∀ (J : Type) (C : Codec J) (fnames : Nat → String) (date : String) (fs : FS)
       (inp : ConnInput) (uploads : List (String × String)) (rl : String)
       (hdrs : List (String × String)) (h m p v : String),
       parse_headers inp.raw = (rl, hdrs) →
       dictGet hdrs "Host" = some h →
       (h = hostMain ∨ h = hostLocal) →
       splitWs rl = [m, p, v] →
       (containsStr p ".." || strStarts p "/../" || strStarts p "//") = false →
       (m == "GET" || m == "HEAD") = true →
       connStep fs C fnames date inp uploads =
         StepOut.keep (handle_get_head fs date p (keepAliveOf v hdrs) m) uploads
           (keepAliveOf v hdrs)) := by
  constructor
  · intro version hdrs
    simp [keepAliveOf, Bool.and_eq_true, bne_iff_ne]
  · intro J C fnames date fs inp uploads rl hdrs h m p v hparse hhost hok hsplit htrav hm
    rw [connStep_eq fs C fnames date inp uploads rl hdrs h m p v hparse hhost hok hsplit]
    simp [htrav, hm]

/-- C8 witness: with version `HTTP/1.1` and a `Connection: KEEP-ALIVE`
header the characterization holds, and on a live GET the step carries
exactly the line-160 flag. -/
theorem spec_C8_witness :
    (keepAliveOf "HTTP/1.1" [("Connection", "KEEP-ALIVE")] = true ↔
      ("HTTP/1.1" = "HTTP/1.1" ∧
        lowerStr (dictGetD [("Connection", "KEEP-ALIVE")] "Connection" "") ≠ "close")) ∧
    connStep fsGood codecTriv fnTriv dateW goodInp [] =
      StepOut.keep
        (handle_get_head fsGood dateW "/index.html"
          (keepAliveOf "HTTP/1.1" [("Host", "127.0.0.1:8080")]) "GET") []
        (keepAliveOf "HTTP/1.1" [("Host", "127.0.0.1:8080")]) :=
  ⟨spec_C8.1 "HTTP/1.1" [("Connection", "KEEP-ALIVE")],
   spec_C8.2 Unit codecTriv fnTriv dateW fsGood goodInp [] "GET /index.html HTTP/1.1"
     [("Host", "127.0.0.1:8080")] "127.0.0.1:8080" "GET" "/index.html" "HTTP/1.1"
     rfl rfl (Or.inl rfl) rfl rfl rfl⟩

/-- Helper: streamed file chunks are not framed responses. -/
lemma countResps_chunks (l : List String) : countResps (l.map SendEvent.chunk) = 0 := by
  induction l with
  | nil => rfl
  | cons c rest ih => simp [countResps, List.countP_cons, ih]

/-- Helper: `handle_get_head` frames at most one response. -/
lemma countResps_hgh (fs : FS) (date p : String) (kA : Bool) (m : String) :
    countResps (handle_get_head fs date p kA m) ≤ 1 := by
  simp only [handle_get_head]
  split
  · simp [countResps]
  · split
    · simp [countResps]
    · split
      · simp [countResps]
      · split
        · simp [countResps]
        · split
          · simp [countResps]
          · split
            · simp [countResps, List.countP_cons, countResps_chunks]
            · simp [countResps]

/-- Helper: when `handle_post` returns, it framed at most one response. -/
lemma handle_post_count {J : Type} (C : Codec J) (date fname p : String)
    (hdrs : List (String × String)) (body : String) (chunks : List String) (kA : Bool)
    (uploads : List (String × String)) (evs : List SendEvent) (ups : List (String × String))
    (h : handle_post C date fname p hdrs body chunks kA uploads = some (evs, ups)) :
    countResps evs ≤ 1 := by
  simp only [handle_post] at h
  split at h
  · simp only [Option.some.injEq, Prod.mk.injEq] at h
    obtain ⟨rfl, rfl⟩ := h
    simp [countResps]
  · split at h
    · exact absurd h (by simp)
    · split at h
      · exact absurd h (by simp)
      · split at h
        · simp only [Option.some.injEq, Prod.mk.injEq] at h
          obtain ⟨rfl, rfl⟩ := h
          simp [countResps]
        · simp only [Option.some.injEq, Prod.mk.injEq] at h
          obtain ⟨rfl, rfl⟩ := h
          simp [countResps]

/-- Helper: one loop iteration frames at most one response. -/
lemma connStep_count {J : Type} (fs : FS) (C : Codec J) (fnames : Nat → String) (date : String)
    (inp : ConnInput) (uploads : List (String × String)) :
    countResps (connStep fs C fnames date inp uploads).events ≤ 1 := by
  simp only [connStep]
  split
  · simp [StepOut.events, countResps]
  · split
    · simp [StepOut.events, countResps]
    · split
      · simp [StepOut.events, countResps]
      · split
        · split
          · simp [StepOut.events, countResps]
          · split
            · simp only [StepOut.events]
              exact countResps_hgh _ _ _ _ _
            · split
              · split
                · next evs ups heq =>
                    simp only [StepOut.events]
                    exact handle_post_count _ _ _ _ _ _ _ _ _ _ _ heq
                · simp [StepOut.events, countResps]
              · simp [StepOut.events, countResps]
        · simp [StepOut.events, countResps]

/-- Helper: prefixing writes adds their response count. -/
lemma respCount_prepend (evs : List SendEvent) (r : ConnResult) :
    (r.prepend evs).respCount = countResps evs + r.respCount := by
  cases r <;> simp [ConnResult.prepend, ConnResult.respCount, countResps, List.countP_append]

/-- Helper: prefixing writes does not change how the connection ended. -/
lemma isClosed_prepend (evs : List SendEvent) (r : ConnResult) :
    (r.prepend evs).isClosed = r.isClosed := by
  cases r <;> rfl

/-- Helper: starting from `handled` requests already served, the loop
frames at most `MAX_REQUESTS_PER_CONN - handled` more responses. -/
lemma connLoop_count {J : Type} (fs : FS) (C : Codec J) (fnames : Nat → String) (date : String)
    (inputs : List ConnInput) :
    ∀ (handled : Nat) (uploads : List (String × String)),
      (connLoop fs C fnames date inputs handled uploads).respCount ≤
        MAX_REQUESTS_PER_CONN - handled := by
  induction inputs with
  | nil => intro handled uploads; simp [connLoop, ConnResult.respCount, countResps]
  | cons inp rest ih =>
    intro handled uploads
    have hle := connStep_count fs C fnames date inp uploads
    simp only [connLoop]
    split
    · simp [ConnResult.respCount, countResps]
    next hmax =>
      split
      · simp [ConnResult.respCount, countResps]
      · split
        next evs ups heq =>
          rw [heq] at hle
          simp only [StepOut.events] at hle
          simp only [ConnResult.respCount]
          omega
        next evs ups heq =>
          rw [heq] at hle
          simp only [StepOut.events] at hle
          simp only [ConnResult.respCount]
          omega
        next evs ups kA heq =>
          rw [heq] at hle
          simp only [StepOut.events] at hle
          split
          · simp only [ConnResult.respCount]
            omega
          · split
            · simp only [ConnResult.respCount]
              omega
            · rw [respCount_prepend]
              have := ih (handled + 1) ups
              omega

/-- Helper: on the reference keep-alive GET the step dispatches with
keep-alive true and unchanged uploads. -/
lemma connStep_good : connStep fsGood codecTriv fnTriv dateW goodInp [] =
    StepOut.keep (handle_get_head fsGood dateW "/index.html" true "GET") [] true := rfl

/-- Helper: the reference GET is answered with exactly one response. -/
lemma countResps_good :
    countResps (handle_get_head fsGood dateW "/index.html" true "GET") = 1 := rfl

/-- Helper: a run of valid keep-alive GETs long enough to hit the ceiling
closes the connection with exactly `MAX_REQUESTS_PER_CONN - handled` more
responses. -/
lemma connLoop_good (m : Nat) :
    ∀ handled : Nat, MAX_REQUESTS_PER_CONN ≤ handled + m →
      (connLoop fsGood codecTriv fnTriv dateW (List.replicate m goodInp) handled []).isClosed
          = true ∧
      (connLoop fsGood codecTriv fnTriv dateW (List.replicate m goodInp) handled []).respCount =
        MAX_REQUESTS_PER_CONN - handled := by
  induction m with
  | zero =>
    intro handled hge
    refine ⟨rfl, ?_⟩
    simp only [List.replicate, connLoop, ConnResult.respCount, countResps, List.countP_nil]
    omega
  | succ k ih =>
    intro handled hge
    rw [List.replicate_succ]
    by_cases hmax : MAX_REQUESTS_PER_CONN ≤ handled
    · constructor
      · simp [connLoop, hmax, ConnResult.isClosed]
      · simp [connLoop, hmax, ConnResult.respCount, countResps]
    · have hstep : connLoop fsGood codecTriv fnTriv dateW (goodInp :: List.replicate k goodInp)
          handled [] =
          (connLoop fsGood codecTriv fnTriv dateW (List.replicate k goodInp) (handled + 1)
            []).prepend (handle_get_head fsGood dateW "/index.html" true "GET") := by
        simp only [connLoop]
        rw [if_neg hmax, if_neg (by decide), connStep_good]
        rfl
      rw [hstep]
      have ihh := ih (handled + 1) (by omega)
      refine ⟨by rw [isClosed_prepend]; exact ihh.1, ?_⟩
      rw [respCount_prepend, countResps_good, ihh.2]
      omega

/-- C9 (confirmed): (1) on every connection, whatever the filesystem,
codec and request stream, the loop frames at most `MAX_REQUESTS_PER_CONN`
responses before the socket is closed; (2) a connection that offers more
than `MAX_REQUESTS_PER_CONN` valid keep-alive GETs is closed (through
`sock.close()`) after exactly `MAX_REQUESTS_PER_CONN` responses, even
though every request negotiated keep-alive. -/
theorem spec_C9 :
    (∀ (J : Type) (C : Codec J) (fs : FS) (fnames : Nat → String) (date : String)
       (inputs : List ConnInput) (uploads : List (String × String)),
       (connLoop fs C fnames date inputs 0 uploads).respCount ≤ MAX_REQUESTS_PER_CONN) ∧
    (∀ n : Nat,
       (connLoop fsGood codecTriv fnTriv dateW
           (List.replicate (MAX_REQUESTS_PER_CONN + 1 + n) goodInp) 0 []).isClosed = true ∧
       (connLoop fsGood codecTriv fnTriv dateW
           (List.replicate (MAX_REQUESTS_PER_CONN + 1 + n) goodInp) 0 []).respCount =
         MAX_REQUESTS_PER_CONN) := by
  constructor
  · intro J C fs fnames date inputs uploads
    have := connLoop_count fs C fnames date inputs 0 uploads
    simpa using this
  · intro n
    have := connLoop_good (MAX_REQUESTS_PER_CONN + 1 + n) 0 (by omega)
    simpa using this
